import Mathlib

/-!
Verification of the Orders screen (src/components/orders/orders.tsx).

The component is shallowly embedded: the derived reference list, the product
and rating batch loaders, the rating-submission handler (as an event trace),
the status presentation functions, the click wiring of an order card, and the
intersection-observer pagination guard are translated into executable Lean
definitions, and the spec's claims are settled against them.
-/

namespace Orders

/-- Projection of the `OrderItem` type used by this component
(productId, display name, image, quantity, unit price, line total). -/
structure OrderItem where
  productId : String
  productName : String
  imageUrl : Option String
  quantity : Nat
  price : Nat
  total : Nat
deriving Repr, DecidableEq

/-- Projection of the `Order` type used by this component:
identifier, human-readable order number, status string, line items. -/
structure Order where
  id : String
  orderNumber : String
  status : String
  items : List OrderItem
deriving Repr, DecidableEq

/-- Partial, read-only projection of a `Product` record. -/
structure Product where
  id : String
  averageRating : Nat
deriving Repr, DecidableEq

/-- One (productId, orderNumber) reference derived from a line item. -/
structure ItemRef where
  productId : String
  orderNumber : String
deriving Repr, DecidableEq

/-- orders.tsx lines 63-68: `allOrderItems = orders.flatMap(order =>
order.items.map(item => ({ productId: item.productId, orderNumber:
order.orderNumber })))`. -/
def allOrderItems (orders : List Order) : List ItemRef :=
  orders.flatMap fun order =>
    order.items.map fun item => ⟨item.productId, order.orderNumber⟩

/-- The arguments of the `getProductById` calls issued by the products
`queryFn` (orders.tsx lines 74-83): after the early return for an empty
reference list, one call is made per element of `allOrderItems`. -/
def productLookupCalls (orders : List Order) : List String :=
  if (allOrderItems orders).length = 0 then []
  else (allOrderItems orders).map fun r => r.productId

/-- orders.tsx lines 74-83: the products `queryFn` awaits one
`getProductById` per element of `allOrderItems` and keeps the non-null
results (`products.filter(p => p !== null)`); a failed / missing lookup is
the `none` case of the §6 interface `getProductById(id) -> Product|null`. -/
def queryFn (plookup : String → Option Product) (orders : List Order) :
    List Product :=
  if (allOrderItems orders).length = 0 then []
  else ((allOrderItems orders).map fun r => plookup r.productId).filterMap id

/-- orders.tsx line 201 / 111 / 534: `` `${productId}_${orderNumber}` ``. -/
def ratingKey (productId orderNumber : String) : String :=
  productId ++ "_" ++ orderNumber

/-- The client-side rating map (`userRatings : Record<string, number>`). -/
def RMap : Type := String → Option Nat

/-- Object-assignment `m[k] = v`. -/
def rset (m : RMap) (k : String) (v : Nat) : RMap :=
  fun k' => if k' = k then some v else m k'

/-- `delete m[k]` (orders.tsx line 244). -/
def rdel (m : RMap) (k : String) : RMap :=
  fun k' => if k' = k then none else m k'

/-- The empty rating map `{}`. -/
def rempty : RMap := fun _ => none

/-- One element of the `ratings` array awaited in `loadUserRatings`
(orders.tsx lines 97-104): `{ productId, orderNumber, rating }` with
`rating : number | null`. -/
structure RatingEntry where
  productId : String
  orderNumber : String
  rating : Option Nat
deriving Repr, DecidableEq

/-- orders.tsx lines 109-114: `if (rating !== null) ratingsMap[key] = rating`. -/
def ratingsMapStep (m : RMap) (e : RatingEntry) : RMap :=
  match e.rating with
  | some r => rset m (ratingKey e.productId e.orderNumber) r
  | none => m

/-- orders.tsx lines 107-114: fold the fetched entries into a fresh map. -/
def buildRatingsMap (entries : List RatingEntry) : RMap :=
  entries.foldl ratingsMapStep rempty

/-- orders.tsx lines 92-124 (`loadUserRatings`): early return (no
`setUserRatings`) when unauthenticated or when the reference list is empty,
else build the map from one `getUserProductRating` per reference; a missing
rating is the `none` case of the §6 interface
`getUserProductRating(userId, productId, orderNumber) -> rating|null`.
`some m` means `setUserRatings m` was called, `none` means it was not. -/
def loadUserRatings (user : Option String) (orders : List Order)
    (rlookup : String → String → String → Option Nat) : Option RMap :=
  match user with
  | none => none
  | some uid =>
    if (allOrderItems orders).length = 0 then none
    else
      some (buildRatingsMap ((allOrderItems orders).map fun r =>
        ⟨r.productId, r.orderNumber, rlookup uid r.productId r.orderNumber⟩))

/-- orders.tsx lines 33-36: `productRatingLoading` holds one
`{ orderID, productId }` pair; `{ orderID: "", productId: "" }` is the
idle value. -/
structure LoadingSlot where
  orderID : String
  productId : String
deriving Repr, DecidableEq

/-- JavaScript truthiness of `userRatings[key]` (`undefined` and `0` are
falsy): `none` and `some 0` are falsy, any other `some v` is truthy. -/
def isTruthy (o : Option Nat) : Bool :=
  o.getD 0 != 0

/-- A toast-style notification (sonner `toast.success / info / error`). -/
inductive Toast where
  | success (msg : String)
  | info (msg : String)
  | error (msg : String)
deriving Repr, DecidableEq

/-- The arguments of one `FirebaseProductService.updateProductRating` call
(orders.tsx lines 218-223). -/
structure NetworkCall where
  productId : String
  rating : Nat
  uid : String
  orderNumber : String
deriving Repr, DecidableEq

/-- One observable action of `handleProductRating`, in program order. -/
inductive REvent where
  | setSlot (s : LoadingSlot)
  | setRating (key : String) (v : Nat)
  | network (c : NetworkCall)
  | notify (t : Toast)
  | delRating (key : String)
  | invalidateProducts
deriving Repr, DecidableEq

/-- orders.tsx line 196. -/
def loginMsg : String := "Please login to rate products"

/-- orders.tsx lines 203-205. -/
def alreadyRatedMsg (productName : String) (v : Nat) : String :=
  "You already rated \"" ++ productName ++ "\" with " ++ toString v ++ " stars"

/-- orders.tsx lines 226-228. -/
def ratingSuccessMsg (productName : String) (v : Nat) : String :=
  "Thanks for rating \"" ++ productName ++ "\" with " ++ toString v ++
    " star" ++ (if v != 1 then "s" else "") ++ "!"

/-- orders.tsx line 248. -/
def ratingFailMsg (productName : String) : String :=
  "Failed to rate \"" ++ productName ++ "\". Please try again."

/-- orders.tsx lines 182-252 (`handleProductRating`), linearized into its
observable actions for one call.  `remoteOk` is whether the awaited
`updateProductRating` call resolves (try branch) or rejects (catch branch).
Guard order is the source's: auth check, already-rated check, set loading
slot, optimistic map write, network call, then success toast + product-query
invalidation or rollback (`delete`) + failure toast, and in `finally` the
slot is reset to the empty pair. -/
def handleProductRatingEvents (user : Option String) (userRatings : RMap)
    (productId : String) (rating : Nat) (productName orderNumber : String)
    (remoteOk : Bool) : List REvent :=
  match user with
  | none => [.notify (.error loginMsg)]
  | some uid =>
    let key := ratingKey productId orderNumber
    if isTruthy (userRatings key) then
      [.notify (.info (alreadyRatedMsg productName ((userRatings key).getD 0)))]
    else
      [.setSlot ⟨orderNumber, productId⟩,
       .setRating key rating,
       .network ⟨productId, rating, uid, orderNumber⟩] ++
      (if remoteOk then
        [.notify (.success (ratingSuccessMsg productName rating)),
         .invalidateProducts]
      else
        [.delRating key, .notify (.error (ratingFailMsg productName))]) ++
      [.setSlot ⟨"", ""⟩]

/-- The component state the submission handler mutates. -/
structure ClientState where
  userRatings : RMap
  slot : LoadingSlot

/-- Effect of one event on the component state. -/
def applyREvent (s : ClientState) : REvent → ClientState
  | .setSlot l => { s with slot := l }
  | .setRating k v => { s with userRatings := rset s.userRatings k v }
  | .delRating k => { s with userRatings := rdel s.userRatings k }
  | .network _ => s
  | .notify _ => s
  | .invalidateProducts => s

/-- Run an event list from a state. -/
def runREvents (s : ClientState) (es : List REvent) : ClientState :=
  es.foldl applyREvent s

/-- The network calls an event list issues. -/
def networkCallsOf (es : List REvent) : List NetworkCall :=
  es.filterMap fun e =>
    match e with
    | .network c => some c
    | _ => none

/-- The toasts an event list shows. -/
def toastsOf (es : List REvent) : List Toast :=
  es.filterMap fun e =>
    match e with
    | .notify t => some t
    | _ => none

/-- orders.tsx lines 572-574 / 590: the saving indicator / disabled test
`productRatingLoading.productId === item.productId &&
order.orderNumber === productRatingLoading.orderID`. -/
def showsIndicator (slot : LoadingSlot) (productId orderNumber : String) :
    Bool :=
  (slot.productId == productId) && (orderNumber == slot.orderID)

/-- orders.tsx line 564: the rating section is rendered only when
`product && order.status === "delivered"`. -/
def ratingControlRendered (productMap : String → Option Product)
    (status : String) (productId : String) : Bool :=
  (productMap productId).isSome && (status == "delivered")

/-- orders.tsx line 571: `readonly={!!userRating}`. -/
def starReadonly (userRatings : RMap) (productId orderNumber : String) :
    Bool :=
  isTruthy (userRatings (ratingKey productId orderNumber))

/-- orders.tsx lines 572-574: the `disabled` prop. -/
def starDisabled (slot : LoadingSlot) (productId orderNumber : String) :
    Bool :=
  showsIndicator slot productId orderNumber

/-- orders.tsx lines 577-588: `onRatingChange` is a handler (not
`undefined`) exactly when `!userRating`. -/
def starHasHandler (userRatings : RMap) (productId orderNumber : String) :
    Bool :=
  !(isTruthy (userRatings (ratingKey productId orderNumber)))

/-- The rating control for a line item is interactive: it is rendered, not
readonly, not disabled, and has a change handler. -/
def ratingInteractive (productMap : String → Option Product) (status : String)
    (userRatings : RMap) (slot : LoadingSlot)
    (productId orderNumber : String) : Bool :=
  ratingControlRendered productMap status productId &&
    !(starReadonly userRatings productId orderNumber) &&
    !(starDisabled slot productId orderNumber) &&
    starHasHandler userRatings productId orderNumber

/-- The spec's interactivity condition, written from its words (§8): order
status is "delivered" AND no existing rating is present for the pair AND no
submission is in flight for that exact pair. -/
def specInteractive (status : String) (userRatings : RMap)
    (slot : LoadingSlot) (productId orderNumber : String) : Bool :=
  (status == "delivered") &&
    !(isTruthy (userRatings (ratingKey productId orderNumber))) &&
    !(showsIndicator slot productId orderNumber)

/-- orders.tsx lines 255-272 (`getStatusIcon`), as (glyph, color class). -/
def getStatusIcon (status : String) : String × String :=
  if status = "delivered" then ("CheckCircle", "text-success")
  else if status = "out_for_delivery" then ("Truck", "text-info")
  else if status = "preparing" then ("Package", "text-warning")
  else if status = "confirmed" then ("Clock", "text-info")
  else if status = "cancelled" then ("XCircle", "text-destructive")
  else if status = "refunded" then ("XCircle", "text-muted-foreground")
  else ("Clock", "text-muted-foreground")

/-- orders.tsx lines 275-291 (`getStatusVariant`); the `cancelled` case
falls through to `refunded`'s return. -/
def getStatusVariant (status : String) : String :=
  if status = "delivered" then "default"
  else if status = "out_for_delivery" then "secondary"
  else if status = "preparing" then "outline"
  else if status = "confirmed" then "secondary"
  else if status = "cancelled" then "destructive"
  else if status = "refunded" then "destructive"
  else "outline"

/-- orders.tsx lines 294-313 (`getStatusText`); the default branch returns
the raw status string. -/
def getStatusText (status : String) : String :=
  if status = "delivered" then "Delivered"
  else if status = "out_for_delivery" then "Out for Delivery"
  else if status = "preparing" then "Preparing"
  else if status = "confirmed" then "Confirmed"
  else if status = "cancelled" then "Cancelled"
  else if status = "placed" then "Order Placed"
  else if status = "refunded" then "Refunded"
  else status

/-- The statuses the data model (spec §3) enumerates. -/
def enumeratedStatuses : List String :=
  ["placed", "confirmed", "preparing", "out_for_delivery", "delivered",
   "cancelled", "refunded"]

/-- The six statuses with dedicated cases in `getStatusIcon` and
`getStatusVariant` (orders.tsx lines 255-291); `placed` is not among them. -/
def iconHandledStatuses : List String :=
  ["delivered", "out_for_delivery", "preparing", "confirmed", "cancelled",
   "refunded"]

/-- A click handler attached to an element of an order card: whether it
calls `stopPropagation`, which order's tracking view it opens, and which
order it refreshes. -/
structure Handler where
  stopsPropagation : Bool
  opensTracking : Option String
  refreshesOrder : Option String
deriving Repr, DecidableEq

/-- orders.tsx lines 490-494: the `Card` element declares no `onClick`. -/
def cardHandler : Option Handler := none

/-- orders.tsx lines 519-522: the per-order refresh button stops
propagation and calls `handleSingleOrderRefresh(order.id)`. -/
def refreshButtonHandler (orderId : String) : Handler :=
  ⟨true, none, some orderId⟩

/-- orders.tsx line 567: the rating section's wrapper only stops
propagation. -/
def ratingAreaHandler : Handler :=
  ⟨true, none, none⟩

/-- orders.tsx lines 670-672 with 315-325: the Track Order row calls
`handleTrackOrderClick`, which stops propagation and opens the tracking
view for `order.id`. -/
def trackRowHandler (orderId : String) : Handler :=
  ⟨true, some orderId, none⟩

/-- Where inside an order card a tap lands. -/
inductive ClickTarget where
  | cardBody
  | refreshButton
  | ratingArea
  | trackRow
deriving Repr, DecidableEq

/-- The bubbling chain of handlers for a tap: the target's own handler (if
any), then the enclosing `Card`'s (which has none). -/
def bubbleChain (orderId : String) : ClickTarget → List (Option Handler)
  | .cardBody => [cardHandler]
  | .refreshButton => [some (refreshButtonHandler orderId), cardHandler]
  | .ratingArea => [some ratingAreaHandler, cardHandler]
  | .trackRow => [some (trackRowHandler orderId), cardHandler]

/-- Outcome of dispatching one tap. -/
structure ClickResult where
  opened : Option String
  refreshed : List String
deriving Repr, DecidableEq

/-- Run a bubbling chain: each handler fires in order until one stops
propagation; elements without a handler are skipped. -/
def runHandlers : List (Option Handler) → ClickResult
  | [] => { opened := none, refreshed := [] }
  | none :: rest => runHandlers rest
  | some h :: rest =>
    let tail :=
      if h.stopsPropagation then ({ opened := none, refreshed := [] } : ClickResult)
      else runHandlers rest
    { opened :=
        match h.opensTracking with
        | some o => some o
        | none => tail.opened,
      refreshed :=
        (match h.refreshesOrder with
         | some r => [r]
         | none => []) ++ tail.refreshed }

/-- Dispatch one tap on an order card. -/
def dispatchClick (orderId : String) (t : ClickTarget) : ClickResult :=
  runHandlers (bubbleChain orderId t)

/-- The order-store flags the intersection-observer effect reads
(orders.tsx lines 138-144). -/
structure PageFlags where
  hasMore : Bool
  loadingMore : Bool
  loading : Bool
  userUid : Option String
deriving Repr, DecidableEq

/-- JavaScript truthiness of `user?.uid`. -/
def uidTruthy : Option String → Bool
  | none => false
  | some u => u != ""

/-- orders.tsx lines 138-144: the observer callback calls
`loadMoreOrders(user.uid)` iff
`target.isIntersecting && hasMore && !loadingMore && !loading && user?.uid`. -/
def observerGuard (isIntersecting : Bool) (f : PageFlags) : Bool :=
  isIntersecting && f.hasMore && !f.loadingMore && !f.loading &&
    uidTruthy f.userUid

/-- One event delivered to the pagination effect: either the browser fires
the observer on a visibility change of the sentinel, or a dependency of the
effect (orders.tsx line 164: `[hasMore, loadingMore, loading, user?.uid,
loadMoreOrders]`) changes, the effect re-runs, and the re-created observer
fires its initial entry with the current visibility. -/
inductive ObsStep where
  | visibility (b : Bool)
  | flagsUpdate (f : PageFlags)
deriving Repr, DecidableEq

/-- Sentinel visibility plus the current store flags. -/
structure ObsState where
  visible : Bool
  flags : PageFlags
deriving Repr, DecidableEq

/-- The intersection value the callback sees at a step. -/
def stepIntersecting (s : ObsState) : ObsStep → Bool
  | .visibility b => b
  | .flagsUpdate _ => s.visible

/-- The flags in effect at a step. -/
def stepFlags (s : ObsState) : ObsStep → PageFlags
  | .visibility _ => s.flags
  | .flagsUpdate f => f

/-- Whether the step invokes `loadMoreOrders`. -/
def stepInvokes (s : ObsState) (e : ObsStep) : Bool :=
  observerGuard (stepIntersecting s e) (stepFlags s e)

/-- Modelled from the spec: the Order Store (`useOrderStore`, not under
src/) keeps §3's in-flight flags — "load-more is only triggered when not
already loading" and §5's "the flags must prevent two fetches of the same
kind overlapping" — so an invocation of `loadMoreOrders` sets `loadingMore`
before the next callback can observe the flags. -/
def stepNext (s : ObsState) (e : ObsStep) : ObsState :=
  let f := stepFlags s e
  ⟨stepIntersecting s e,
   if stepInvokes s e then { f with loadingMore := true } else f⟩

/-- Number of `loadMoreOrders` invocations along a trace. -/
def countInvocations (s : ObsState) : List ObsStep → Nat
  | [] => 0
  | e :: rest =>
    (if stepInvokes s e then 1 else 0) + countInvocations (stepNext s e) rest

/-- Whether a step is a transition of the sentinel from not-visible to
visible. -/
def isRise (s : ObsState) : ObsStep → Bool
  | .visibility b => b && !s.visible
  | .flagsUpdate _ => false

/-- Number of not-visible-to-visible transitions along a trace. -/
def countRises (s : ObsState) : List ObsStep → Nat
  | [] => 0
  | e :: rest =>
    (if isRise s e then 1 else 0) + countRises (stepNext s e) rest

/-- Modelled from the spec: backend state touched by a rating submission.
`FirebaseProductService` (not under src/) per §6 exposes
`updateProductRating(productId, rating, userId, orderNumber)` and
`getUserProductRating(userId, productId, orderNumber) -> rating|null`; per
§5 "last-write-wins by key" a successful write is what a later read of the
same (productId, orderNumber) key returns.  `server` is that per-key store
for the current user, `client` the component's `userRatings` map. -/
structure RatingSync where
  server : RMap
  client : RMap

/-- The combined effect of a successful submission for a pair: the
optimistic client write (orders.tsx line 216) and the remote write
(orders.tsx lines 218-223) both record the submitted value at the pair's
key. -/
def submitSuccess (s : RatingSync) (productId orderNumber : String)
    (v : Nat) : RatingSync :=
  ⟨rset s.server (ratingKey productId orderNumber) v,
   rset s.client (ratingKey productId orderNumber) v⟩

/-- A re-fetch of the rating batch (orders.tsx lines 97-117): the client
map is rebuilt from one `getUserProductRating` read per reference, i.e.
from the server store at each reference's key. -/
def refetchRatings (s : RatingSync) (refs : List ItemRef) : RatingSync :=
  ⟨s.server,
   buildRatingsMap (refs.map fun r =>
     ⟨r.productId, r.orderNumber, s.server (ratingKey r.productId r.orderNumber)⟩)⟩

/-- A concrete order list in which the same product occurs in two line
items of one order and once more in a second order. -/
def cexOrders : List Order :=
  [⟨"o1", "A", "delivered",
    [⟨"p1", "Tea", none, 1, 10, 10⟩, ⟨"p1", "Tea", none, 2, 10, 20⟩]⟩,
   ⟨"o2", "B", "delivered", [⟨"p1", "Tea", none, 1, 10, 10⟩]⟩]

/-- A concrete pagination trace: the sentinel becomes visible once (first
load-more fires), then the store finishes the load (`loadingMore` back to
false), the effect re-runs and the re-created observer reports the still
visible sentinel, and a second load-more fires. -/
def c8Flags : PageFlags := ⟨true, false, false, some "u"⟩

/-- The trace for the pagination counterexample. -/
def c8Trace : List ObsStep :=
  [.visibility true, .flagsUpdate ⟨true, false, false, some "u"⟩]

/-- Concrete product lookup: only "p1" resolves. -/
def wPlookup : String → Option Product :=
  fun pid => if pid = "p1" then some ⟨"p1", 4⟩ else none

/-- Concrete rating lookup: only "p1" has a stored rating. -/
def wRlookup : String → String → String → Option Nat :=
  fun _ pid _ => if pid = "p1" then some 5 else none

/-- Concrete order list with one resolvable and one failing product. -/
def wOrders : List Order :=
  [⟨"o1", "A", "delivered",
    [⟨"p1", "Tea", none, 1, 10, 10⟩, ⟨"p2", "Cup", none, 1, 5, 5⟩]⟩]

/-- The rating map `loadUserRatings` produces on `wOrders`. -/
def wRatingsMap : RMap :=
  buildRatingsMap ((allOrderItems wOrders).map fun r =>
    ⟨r.productId, r.orderNumber, wRlookup "u" r.productId r.orderNumber⟩)

/-- Concrete backend/client state with nothing stored. -/
def wSync : RatingSync := ⟨rempty, rempty⟩

/-- Concrete refetch batches, each containing the pair ("p1", "A"). -/
def wBatches : List (List ItemRef) := [[⟨"p1", "A"⟩], [⟨"p1", "A"⟩, ⟨"p2", "A"⟩]]

/-- Concrete rating map holding 5 stars for the pair ("p1", "A"). -/
def w6Ratings : RMap :=
  fun k => if k = ratingKey "p1" "A" then some 5 else none

/- ======================  theorems  ====================== -/

/-- Point evaluation of `rset` at the written key. -/
theorem rset_self (m : RMap) (k : String) (v : Nat) : rset m k v k = some v := by
  simp [rset]

/-- Point evaluation of `rset` away from the written key. -/
theorem rset_other (m : RMap) (k v k') (h : k' ≠ k) : rset m k v k' = m k' := by
  simp [rset, h]

/-- One `ratingsMapStep` makes a key present iff it was present before or
the entry targets the key with a non-null rating. -/
theorem ratingsMapStep_isSome (m : RMap) (e : RatingEntry) (k : String) :
    ((ratingsMapStep m e) k).isSome = true ↔
      (m k).isSome = true ∨
        (ratingKey e.productId e.orderNumber = k ∧ e.rating.isSome = true) := by
  rcases e with ⟨pid, onum, rat⟩
  cases rat with
  | none => simp [ratingsMapStep]
  | some r =>
    simp only [ratingsMapStep, rset]
    by_cases hk : k = ratingKey pid onum
    · simp [hk]
    · have hk' : ¬ ratingKey pid onum = k := fun h => hk h.symm
      simp [hk, hk']

/-- Folding `ratingsMapStep` over entries: a key is present iff it was
present initially or some entry targets it with a non-null rating. -/
theorem foldl_ratingsMapStep_isSome (entries : List RatingEntry) (m : RMap)
    (k : String) :
    ((entries.foldl ratingsMapStep m) k).isSome = true ↔
      (m k).isSome = true ∨
        ∃ e ∈ entries, ratingKey e.productId e.orderNumber = k ∧
          e.rating.isSome = true := by
  induction entries generalizing m with
  | nil => simp
  | cons e es ih =>
    rw [List.foldl_cons, ih, ratingsMapStep_isSome]
    constructor
    · rintro (((hm | he) | ⟨e', he', hk', hs'⟩))
      · exact Or.inl hm
      · exact Or.inr ⟨e, List.mem_cons_self e es, he⟩
      · exact Or.inr ⟨e', List.mem_cons_of_mem e he', hk', hs'⟩
    · rintro (hm | ⟨e', he', hk', hs'⟩)
      · exact Or.inl (Or.inl hm)
      · rcases List.mem_cons.1 he' with rfl | he''
        · exact Or.inl (Or.inr ⟨hk', hs'⟩)
        · exact Or.inr ⟨e', he'', hk', hs'⟩

/-- A key is present in `buildRatingsMap entries` iff some entry targets it
with a non-null rating. -/
theorem buildRatingsMap_isSome (entries : List RatingEntry) (k : String) :
    ((buildRatingsMap entries) k).isSome = true ↔
      ∃ e ∈ entries, ratingKey e.productId e.orderNumber = k ∧
        e.rating.isSome = true := by
  rw [buildRatingsMap, foldl_ratingsMapStep_isSome]
  simp [rempty]

/-- If every entry targeting a key carries `some v` and the key already
maps to `some v`, folding preserves that value. -/
theorem foldl_ratingsMapStep_preserve (entries : List RatingEntry) (m : RMap)
    (k : String) (v : Nat)
    (hall : ∀ e ∈ entries, ratingKey e.productId e.orderNumber = k →
      e.rating = some v)
    (hm : m k = some v) :
    (entries.foldl ratingsMapStep m) k = some v := by
  induction entries generalizing m with
  | nil => simpa using hm
  | cons e es ih =>
    rw [List.foldl_cons]
    refine ih _ (fun e' he' => hall e' (List.mem_cons_of_mem e he')) ?_
    rcases e with ⟨pid, onum, rat⟩
    cases hrat : rat with
    | none => simpa [ratingsMapStep, hrat] using hm
    | some r =>
      simp only [ratingsMapStep, hrat, rset]
      by_cases hk : k = ratingKey pid onum
      · have hv := hall ⟨pid, onum, rat⟩ (List.mem_cons_self _ _) hk.symm
        rw [hrat] at hv
        have hrv : r = v := by simpa using hv
        simp [hk, hrv]
      · simp [hk, hm]

/-- If every entry targeting a key carries `some v` and at least one entry
targets the key with a non-null rating, folding writes `some v`. -/
theorem foldl_ratingsMapStep_writes (entries : List RatingEntry) (m : RMap)
    (k : String) (v : Nat)
    (hall : ∀ e ∈ entries, ratingKey e.productId e.orderNumber = k →
      e.rating = some v)
    (hex : ∃ e ∈ entries, ratingKey e.productId e.orderNumber = k ∧
      e.rating.isSome = true) :
    (entries.foldl ratingsMapStep m) k = some v := by
  induction entries generalizing m with
  | nil => simp at hex
  | cons e es ih =>
    rw [List.foldl_cons]
    by_cases hk : ratingKey e.productId e.orderNumber = k
    · have he : e.rating = some v := hall e (List.mem_cons_self _ _) hk
      refine foldl_ratingsMapStep_preserve es _ k v
        (fun e' he' => hall e' (List.mem_cons_of_mem e he')) ?_
      rcases e with ⟨pid, onum, rat⟩
      simp only at he hk
      simp [ratingsMapStep, he, rset, hk]
    · rcases hex with ⟨e', he', hk', hs'⟩
      rcases List.mem_cons.1 he' with rfl | he''
      · exact absurd hk' hk
      · exact ih _ (fun e'' he'' => hall e'' (List.mem_cons_of_mem e he''))
          ⟨e', he'', hk', hs'⟩

/-- The length of the derived reference list is the total number of line
items across the loaded orders. -/
theorem length_allOrderItems (orders : List Order) :
    (allOrderItems orders).length = (orders.map fun o => o.items.length).sum := by
  unfold allOrderItems
  induction orders with
  | nil => rfl
  | cons o os ih => simp [ih]

/-- C1 counterexample: on `cexOrders` (productId "p1" occurring in three
line items of two orders) the batch fetch issues three `getProductById`
calls for one unique productId, and the derived (productId, orderNumber)
reference list has a duplicate entry — so the lookups are not deduplicated
and the reference set is not duplicate-free. -/
theorem c1_counterexample :
    productLookupCalls cexOrders = ["p1", "p1", "p1"]
    ∧ ((allOrderItems cexOrders).map fun r => r.productId).dedup = ["p1"]
    ∧ ¬ (allOrderItems cexOrders).Nodup := by
  decide

/-- C1 (amended): the product batch fetch issues exactly one
`getProductById` call per line item occurrence across all loaded orders
(its arguments are the productIds of `allOrderItems`, in order, with no
deduplication), and the derived (productId, orderNumber) reference list has
exactly one entry per line item, so it may contain duplicates. -/
theorem c1_one_lookup_per_line_item (orders : List Order) :
    (productLookupCalls orders).length =
      (orders.map fun o => o.items.length).sum
    ∧ productLookupCalls orders = (allOrderItems orders).map fun r => r.productId := by
  constructor
  · unfold productLookupCalls
    by_cases h : (allOrderItems orders).length = 0
    · rw [if_pos h, ← length_allOrderItems orders, h]
      simp
    · rw [if_neg h, List.length_map]
      exact length_allOrderItems orders
  · unfold productLookupCalls
    by_cases h : (allOrderItems orders).length = 0
    · rw [if_pos h]
      rw [List.length_eq_zero.mp h]
      rfl
    · rw [if_neg h]

/-- C2: evaluation of the card's click wiring at a concrete order id. A tap
on the card body (outside the nested controls) reaches only the `Card`
element, which declares no click handler, so nothing opens — although the
nested controls all call `stopPropagation` precisely to guard against a
card-level handler; a tap on the per-order refresh control refreshes only
that order and opens nothing; a tap on the Track Order row opens the
tracking view for that order; both nested interactive controls stop
propagation. -/
theorem c2_card_body_click_is_noop :
    dispatchClick "o1" ClickTarget.cardBody = ⟨none, []⟩
    ∧ dispatchClick "o1" ClickTarget.refreshButton = ⟨none, ["o1"]⟩
    ∧ dispatchClick "o1" ClickTarget.trackRow = ⟨some "o1", []⟩
    ∧ dispatchClick "o1" ClickTarget.ratingArea = ⟨none, []⟩
    ∧ (refreshButtonHandler "o1").stopsPropagation = true
    ∧ (trackRowHandler "o1").stopsPropagation = true
    ∧ cardHandler = none := by
  decide

/-- C3: individual lookup failures are excluded entry-by-entry and never
fail the batch. A product is in the merged product list iff some reference's
lookup returned it (failed / missing lookups are dropped, all successful
ones kept), and a key is present in the merged rating map iff some
reference with that key had a non-null rating lookup — both loaders are
total functions into data, so no batch-level error is produced. -/
theorem c3_individual_failures_excluded
    (plookup : String → Option Product)
    (rlookup : String → String → String → Option Nat)
    (uid : String) (orders : List Order) (m : RMap) (p : Product) (k : String)
    (hm : loadUserRatings (some uid) orders rlookup = some m) :
    (p ∈ queryFn plookup orders ↔
      ∃ r ∈ allOrderItems orders, plookup r.productId = some p)
    ∧ ((m k).isSome = true ↔
      ∃ r ∈ allOrderItems orders,
        ratingKey r.productId r.orderNumber = k ∧
          (rlookup uid r.productId r.orderNumber).isSome = true) := by
  constructor
  · unfold queryFn
    by_cases h : (allOrderItems orders).length = 0
    · rw [if_pos h]
      rw [List.length_eq_zero.mp h]
      simp
    · rw [if_neg h]
      simp only [List.mem_filterMap, List.mem_map, id]
      constructor
      · rintro ⟨a, ⟨r, hr, rfl⟩, h2⟩
        exact ⟨r, hr, h2⟩
      · rintro ⟨r, hr, h2⟩
        exact ⟨plookup r.productId, ⟨r, hr, rfl⟩, h2⟩
  · simp only [loadUserRatings] at hm
    by_cases h : (allOrderItems orders).length = 0
    · rw [if_pos h] at hm
      cases hm
    · rw [if_neg h] at hm
      injection hm with hm'
      rw [← hm', buildRatingsMap_isSome]
      constructor
      · rintro ⟨e, he, hke, hse⟩
        rcases List.mem_map.1 he with ⟨r, hr, rfl⟩
        exact ⟨r, hr, hke, hse⟩
      · rintro ⟨r, hr, hke, hse⟩
        exact ⟨⟨r.productId, r.orderNumber, rlookup uid r.productId r.orderNumber⟩,
          List.mem_map_of_mem _ hr, hke, hse⟩

/-- C3 witness: on `wOrders` (items "p1" and "p2", only "p1" resolving) the
theorem's hypothesis and its conclusions hold at concrete inputs. -/
theorem c3_witness :
    loadUserRatings (some "u") wOrders wRlookup = some wRatingsMap
    ∧ ((⟨"p1", 4⟩ ∈ queryFn wPlookup wOrders ↔
        ∃ r ∈ allOrderItems wOrders, wPlookup r.productId = some ⟨"p1", 4⟩)
      ∧ ((wRatingsMap (ratingKey "p1" "A")).isSome = true ↔
        ∃ r ∈ allOrderItems wOrders,
          ratingKey r.productId r.orderNumber = ratingKey "p1" "A" ∧
            (wRlookup "u" r.productId r.orderNumber).isSome = true)) :=
  ⟨rfl, c3_individual_failures_excluded wPlookup wRlookup "u" wOrders
    wRatingsMap ⟨"p1", 4⟩ (ratingKey "p1" "A") rfl⟩

/-- Refetching does not change the modelled server store. -/
theorem refetchRatings_server (s : RatingSync) (refs : List ItemRef) :
    (refetchRatings s refs).server = s.server := rfl

/-- If the server holds `some v` at a key, the client holds `some v` at the
key, and every refetch batch references the key, then after any sequence of
refetches the client still holds `some v` at the key. -/
theorem refetch_fold_keeps (batches : List (List ItemRef)) (s : RatingSync)
    (k : String) (v : Nat)
    (hs : s.server k = some v) (hc : s.client k = some v)
    (hmem : ∀ b ∈ batches, ∃ r ∈ b, ratingKey r.productId r.orderNumber = k) :
    (batches.foldl refetchRatings s).client k = some v := by
  induction batches generalizing s with
  | nil => exact hc
  | cons b bs ih =>
    rw [List.foldl_cons]
    refine ih _ ?_ ?_ (fun b' hb' => hmem b' (List.mem_cons_of_mem b hb'))
    · rw [refetchRatings_server]
      exact hs
    · show (buildRatingsMap (b.map fun r =>
        ⟨r.productId, r.orderNumber, s.server (ratingKey r.productId r.orderNumber)⟩)) k = some v
      unfold buildRatingsMap
      refine foldl_ratingsMapStep_writes _ _ k v ?_ ?_
      · intro e he hke
        rcases List.mem_map.1 he with ⟨r, hr, rfl⟩
        simp only at hke ⊢
        rw [hke, hs]
      · rcases hmem b (List.mem_cons_self b bs) with ⟨r, hr, hkr⟩
        refine ⟨⟨r.productId, r.orderNumber, s.server (ratingKey r.productId r.orderNumber)⟩,
          List.mem_map_of_mem _ hr, hkr, ?_⟩
        simp only
        rw [hkr, hs]
        rfl

/-- C4: after a successful submission of value `v` for a pair, the
client-side rating map holds `v` at the pair's key, and it still holds `v`
after any sequence of rating-batch refetches whose reference sets contain
the pair — the pair never regresses to unrated once the remote write
succeeded. -/
theorem c4_no_regression_after_success (s : RatingSync)
    (productId orderNumber : String) (v : Nat)
    (batches : List (List ItemRef))
    (hmem : ∀ b ∈ batches, ∃ r ∈ b,
      ratingKey r.productId r.orderNumber = ratingKey productId orderNumber) :
    (submitSuccess s productId orderNumber v).client
        (ratingKey productId orderNumber) = some v
    ∧ (batches.foldl refetchRatings (submitSuccess s productId orderNumber v)).client
        (ratingKey productId orderNumber) = some v := by
  constructor
  · exact rset_self _ _ _
  · exact refetch_fold_keeps batches _ _ v (rset_self _ _ _) (rset_self _ _ _) hmem

/-- C4 witness: concrete submission of 4 stars for ("p1", "A") followed by
two refetch batches containing the pair. -/
theorem c4_witness :
    (∀ b ∈ wBatches, ∃ r ∈ b,
      ratingKey r.productId r.orderNumber = ratingKey "p1" "A")
    ∧ ((submitSuccess wSync "p1" "A" 4).client (ratingKey "p1" "A") = some 4
      ∧ (wBatches.foldl refetchRatings (submitSuccess wSync "p1" "A" 4)).client
          (ratingKey "p1" "A") = some 4) :=
  ⟨by decide, c4_no_regression_after_success wSync "p1" "A" 4 wBatches (by decide)⟩

/-- C5 counterexample: for a line item of a delivered order with no stored
rating and no submission in flight, but whose product lookup failed (the
product map has no record for it), the spec's condition holds yet the
control is not interactive — it is not even rendered (orders.tsx line 564
guards the rating section with `product && ...`). -/
theorem c5_counterexample :
    ratingInteractive (fun _ => none) "delivered" rempty ⟨"", ""⟩ "p1" "A" = false
    ∧ specInteractive "delivered" rempty ⟨"", ""⟩ "p1" "A" = true := by
  constructor <;> rfl

/-- C5 (amended): the rating control for a line item is interactive iff the
product record is present in the product map (otherwise no control is
rendered at all) AND the owning order's status is "delivered" AND no rating
exists in the rating map for that (productId, orderNumber) pair AND no
submission is in flight for that exact pair. -/
theorem c5_interactive_iff (pm : String → Option Product) (status : String)
    (ur : RMap) (slot : LoadingSlot) (pid onum : String) :
    ratingInteractive pm status ur slot pid onum =
      ((pm pid).isSome && specInteractive status ur slot pid onum) := by
  unfold ratingInteractive specInteractive ratingControlRendered starReadonly
    starDisabled starHasHandler
  cases h1 : (pm pid).isSome <;> cases h2 : (status == "delivered") <;>
    cases h3 : isTruthy (ur (ratingKey pid onum)) <;>
    cases h4 : showsIndicator slot pid onum <;> simp [h1, h2, h3, h4]

/-- C6: precondition rejections. If the pair already has a (truthy) rating
`ex`, the handler emits exactly one informational toast whose message
contains the existing value, issues no network call, and leaves the rating
map and the loading slot unchanged; if no user is authenticated, it emits
exactly one auth-required error toast, issues no network call, and mutates
nothing. -/
theorem c6_reject_already_rated_and_unauthenticated (ratings : RMap)
    (slot : LoadingSlot) (pid : String) (v : Nat) (name onum : String)
    (remoteOk : Bool) (uid : String) (ex : Nat)
    (hex : ratings (ratingKey pid onum) = some ex) (hne : ex ≠ 0) :
    (handleProductRatingEvents (some uid) ratings pid v name onum remoteOk =
        [.notify (.info (alreadyRatedMsg name ex))]
      ∧ networkCallsOf
          (handleProductRatingEvents (some uid) ratings pid v name onum remoteOk) = []
      ∧ runREvents ⟨ratings, slot⟩
          (handleProductRatingEvents (some uid) ratings pid v name onum remoteOk) =
          ⟨ratings, slot⟩
      ∧ ∃ a b, alreadyRatedMsg name ex = a ++ toString ex ++ b)
    ∧ (handleProductRatingEvents none ratings pid v name onum remoteOk =
        [.notify (.error loginMsg)]
      ∧ networkCallsOf
          (handleProductRatingEvents none ratings pid v name onum remoteOk) = []
      ∧ runREvents ⟨ratings, slot⟩
          (handleProductRatingEvents none ratings pid v name onum remoteOk) =
          ⟨ratings, slot⟩) := by
  have ht : isTruthy (some ex) = true := by
    simpa [isTruthy] using hne
  have hev : handleProductRatingEvents (some uid) ratings pid v name onum remoteOk =
      [.notify (.info (alreadyRatedMsg name ex))] := by
    simp [handleProductRatingEvents, hex, ht]
  refine ⟨⟨hev, ?_, ?_, ?_⟩, rfl, rfl, rfl⟩
  · rw [hev]
    rfl
  · rw [hev]
    rfl
  · exact ⟨"You already rated \"" ++ name ++ "\" with ", " stars",
      by simp [alreadyRatedMsg, String.append_assoc]⟩

/-- C6 witness: concrete rating map holding 5 stars for ("p1", "A"). -/
theorem c6_witness :
    (w6Ratings (ratingKey "p1" "A") = some 5 ∧ (5 : Nat) ≠ 0)
    ∧ ((handleProductRatingEvents (some "u") w6Ratings "p1" 3 "Tea" "A" true =
        [.notify (.info (alreadyRatedMsg "Tea" 5))]
      ∧ networkCallsOf
          (handleProductRatingEvents (some "u") w6Ratings "p1" 3 "Tea" "A" true) = []
      ∧ runREvents ⟨w6Ratings, ⟨"", ""⟩⟩
          (handleProductRatingEvents (some "u") w6Ratings "p1" 3 "Tea" "A" true) =
          ⟨w6Ratings, ⟨"", ""⟩⟩
      ∧ ∃ a b, alreadyRatedMsg "Tea" 5 = a ++ toString (5 : Nat) ++ b)
    ∧ (handleProductRatingEvents none w6Ratings "p1" 3 "Tea" "A" true =
        [.notify (.error loginMsg)]
      ∧ networkCallsOf
          (handleProductRatingEvents none w6Ratings "p1" 3 "Tea" "A" true) = []
      ∧ runREvents ⟨w6Ratings, ⟨"", ""⟩⟩
          (handleProductRatingEvents none w6Ratings "p1" 3 "Tea" "A" true) =
          ⟨w6Ratings, ⟨"", ""⟩⟩)) :=
  ⟨⟨rfl, by decide⟩,
    c6_reject_already_rated_and_unauthenticated w6Ratings ⟨"", ""⟩ "p1" 3 "Tea"
      "A" true "u" 5 rfl (by decide)⟩

/-- C7: submission-failure rollback. When the remote write fails for a pair
that had no prior rating, the final state has no rating at the pair's key
(the optimistic value is removed), every other key is unchanged, the
loading slot is reset to the empty pair, a failure toast is among the
emitted toasts, and — whenever the product record is present — the control
is interactive again. -/
theorem c7_failure_rollback (ratings : RMap) (slot : LoadingSlot)
    (pid : String) (v : Nat) (name onum uid : String)
    (pm : String → Option Product) (k' : String)
    (hno : isTruthy (ratings (ratingKey pid onum)) = false)
    (hpid : pid ≠ "") (hk' : k' ≠ ratingKey pid onum) :
    (runREvents ⟨ratings, slot⟩
        (handleProductRatingEvents (some uid) ratings pid v name onum false)).userRatings
        (ratingKey pid onum) = none
    ∧ (runREvents ⟨ratings, slot⟩
        (handleProductRatingEvents (some uid) ratings pid v name onum false)).userRatings
        k' = ratings k'
    ∧ (runREvents ⟨ratings, slot⟩
        (handleProductRatingEvents (some uid) ratings pid v name onum false)).slot =
        ⟨"", ""⟩
    ∧ Toast.error (ratingFailMsg name) ∈
        toastsOf (handleProductRatingEvents (some uid) ratings pid v name onum false)
    ∧ ((pm pid).isSome = true →
        ratingInteractive pm "delivered"
          (runREvents ⟨ratings, slot⟩
            (handleProductRatingEvents (some uid) ratings pid v name onum false)).userRatings
          (runREvents ⟨ratings, slot⟩
            (handleProductRatingEvents (some uid) ratings pid v name onum false)).slot
          pid onum = true) := by
  have hev : handleProductRatingEvents (some uid) ratings pid v name onum false =
      [.setSlot ⟨onum, pid⟩, .setRating (ratingKey pid onum) v,
       .network ⟨pid, v, uid, onum⟩, .delRating (ratingKey pid onum),
       .notify (.error (ratingFailMsg name)), .setSlot ⟨"", ""⟩] := by
    simp [handleProductRatingEvents, hno]
  have hrun : runREvents ⟨ratings, slot⟩
      (handleProductRatingEvents (some uid) ratings pid v name onum false) =
      ⟨rdel (rset ratings (ratingKey pid onum) v) (ratingKey pid onum), ⟨"", ""⟩⟩ := by
    rw [hev]
    rfl
  have hemp : ("" == pid) = false := by
    simp only [beq_eq_false_iff_ne, ne_eq]
    exact fun h => hpid h.symm
  refine ⟨?_, ?_, ?_, ?_, ?_⟩
  · rw [hrun]
    simp [rdel]
  · rw [hrun]
    simp [rdel, rset, hk']
  · rw [hrun]
  · rw [hev]
    simp [toastsOf]
  · intro hpm
    rw [hrun]
    simp [ratingInteractive, ratingControlRendered, starReadonly, starDisabled,
      starHasHandler, showsIndicator, isTruthy, rdel, hpm, hemp]

/-- C7 witness: concrete failed submission of 2 stars for ("p1", "A") from
an empty rating map. -/
theorem c7_witness :
    (isTruthy (rempty (ratingKey "p1" "A")) = false ∧ "p1" ≠ ""
      ∧ "x" ≠ ratingKey "p1" "A")
    ∧ ((runREvents ⟨rempty, ⟨"", ""⟩⟩
        (handleProductRatingEvents (some "u") rempty "p1" 2 "Tea" "A" false)).userRatings
        (ratingKey "p1" "A") = none
    ∧ (runREvents ⟨rempty, ⟨"", ""⟩⟩
        (handleProductRatingEvents (some "u") rempty "p1" 2 "Tea" "A" false)).userRatings
        "x" = rempty "x"
    ∧ (runREvents ⟨rempty, ⟨"", ""⟩⟩
        (handleProductRatingEvents (some "u") rempty "p1" 2 "Tea" "A" false)).slot =
        ⟨"", ""⟩
    ∧ Toast.error (ratingFailMsg "Tea") ∈
        toastsOf (handleProductRatingEvents (some "u") rempty "p1" 2 "Tea" "A" false)
    ∧ ((wPlookup "p1").isSome = true →
        ratingInteractive wPlookup "delivered"
          (runREvents ⟨rempty, ⟨"", ""⟩⟩
            (handleProductRatingEvents (some "u") rempty "p1" 2 "Tea" "A" false)).userRatings
          (runREvents ⟨rempty, ⟨"", ""⟩⟩
            (handleProductRatingEvents (some "u") rempty "p1" 2 "Tea" "A" false)).slot
          "p1" "A" = true)) :=
  ⟨⟨rfl, by decide, by decide⟩,
    c7_failure_rollback rempty ⟨"", ""⟩ "p1" 2 "Tea" "A" "u" wPlookup "x" rfl
      (by decide) (by decide)⟩

/-- C8 counterexample: a trace with exactly one transition of the sentinel
from not-visible to visible but two `loadMoreOrders` invocations. The
sentinel becomes visible (first invocation); the load-more completes, the
effect's dependency `loadingMore` changes, the effect re-runs, and the
re-created observer's initial entry reports the still-visible sentinel with
the guard satisfied again (second invocation) — so "at most once per
transition of the sentinel from not-visible to visible" fails. -/
theorem c8_counterexample :
    countInvocations ⟨false, c8Flags⟩ c8Trace = 2
    ∧ countRises ⟨false, c8Flags⟩ c8Trace = 1 := by
  decide

/-- C8 (amended): `loadMoreOrders` is invoked only at an observer event at
which the sentinel is intersecting AND `hasMore` is true AND no load-more
and no initial load is in flight AND a user is authenticated — in
particular never when `hasMore` is false — and at most once per such event:
an invocation sets the in-flight flag, so no further visibility event can
invoke again until the flags change (one continuous visibility span may
still yield one invocation per completed load, via the effect re-running on
a flag change). -/
theorem c8_guarded_invocation (s : ObsState) (e : ObsStep)
    (hinv : stepInvokes s e = true) :
    stepIntersecting s e = true
    ∧ (stepFlags s e).hasMore = true
    ∧ (stepFlags s e).loadingMore = false
    ∧ (stepFlags s e).loading = false
    ∧ uidTruthy (stepFlags s e).userUid = true
    ∧ (∀ b, stepInvokes (stepNext s e) (.visibility b) = false) := by
  have hg := hinv
  simp only [stepInvokes, observerGuard, Bool.and_eq_true, Bool.not_eq_true'] at hg
  refine ⟨hg.1.1.1.1, hg.1.1.1.2, hg.1.1.2, hg.1.2, hg.2, ?_⟩
  intro b
  have hn : (stepNext s e).flags.loadingMore = true := by
    simp [stepNext, hinv]
  simp [stepInvokes, observerGuard, stepFlags, hn]

/-- C8 witness: the guard holds at the first step of the counterexample
trace, and the conclusions hold there. -/
theorem c8_witness :
    stepInvokes ⟨false, c8Flags⟩ (.visibility true) = true
    ∧ (stepIntersecting ⟨false, c8Flags⟩ (.visibility true) = true
      ∧ (stepFlags ⟨false, c8Flags⟩ (.visibility true)).hasMore = true
      ∧ (stepFlags ⟨false, c8Flags⟩ (.visibility true)).loadingMore = false
      ∧ (stepFlags ⟨false, c8Flags⟩ (.visibility true)).loading = false
      ∧ uidTruthy (stepFlags ⟨false, c8Flags⟩ (.visibility true)).userUid = true
      ∧ (∀ b, stepInvokes (stepNext ⟨false, c8Flags⟩ (.visibility true))
          (.visibility b) = false)) :=
  ⟨by decide, c8_guarded_invocation ⟨false, c8Flags⟩ (.visibility true) (by decide)⟩

/-- C9 counterexample: the status presentation functions give dedicated
(non-neutral) treatment to seven status values, not six. `getStatusIcon`
and `getStatusVariant` enumerate six statuses, "placed" not among them, yet
`getStatusText "placed"` is "Order Placed", not the raw string — so for the
six-status reading of the claim the label clause fails at "placed" (and any
six-element set must exclude one of the seven specially-treated values). -/
theorem c9_counterexample :
    iconHandledStatuses.length = 6
    ∧ "placed" ∉ iconHandledStatuses
    ∧ getStatusText "placed" = "Order Placed"
    ∧ getStatusText "placed" ≠ "placed" := by
  decide

/-- C9 (amended): the three status presentation functions are total (the
switch default makes them defined on every string, never throwing), and for
any status value outside the seven statuses enumerated in the data model
(placed, confirmed, preparing, out_for_delivery, delivered, cancelled,
refunded) the icon and badge emphasis fall back to the neutral defaults and
the label equals the raw status string unchanged. -/
theorem c9_unknown_status_fallback (s : String) (h : s ∉ enumeratedStatuses) :
    getStatusIcon s = ("Clock", "text-muted-foreground")
    ∧ getStatusVariant s = "outline"
    ∧ getStatusText s = s := by
  simp only [enumeratedStatuses, List.mem_cons, List.not_mem_nil, or_false,
    not_or] at h
  obtain ⟨h1, h2, h3, h4, h5, h6, h7⟩ := h
  refine ⟨?_, ?_, ?_⟩ <;>
    simp [getStatusIcon, getStatusVariant, getStatusText, h1, h2, h3, h4, h5,
      h6, h7]

/-- C9 witness: the fallback at the concrete unknown status "on_hold". -/
theorem c9_witness :
    "on_hold" ∉ enumeratedStatuses
    ∧ (getStatusIcon "on_hold" = ("Clock", "text-muted-foreground")
      ∧ getStatusVariant "on_hold" = "outline"
      ∧ getStatusText "on_hold" = "on_hold") :=
  ⟨by decide, c9_unknown_status_fallback "on_hold" (by decide)⟩

/-- C10: the submission-in-flight state is a single slot. Two pairs cannot
both match the slot at once (at most one saving indicator at any moment);
the first action of any submission that passes the preconditions overwrites
the slot with that submission's pair whatever it held before; after the
submission completes — success or failure alike — the slot is the empty
pair, and no pair with a nonempty productId matches the empty slot. -/
theorem c10_single_loading_slot (ratings : RMap) (slot0 sl : LoadingSlot)
    (pid name onum uid p1 o1 p2 o2 p3 o3 : String) (v : Nat) (remoteOk : Bool)
    (hno : isTruthy (ratings (ratingKey pid onum)) = false)
    (h1 : showsIndicator sl p1 o1 = true)
    (h2 : showsIndicator sl p2 o2 = true)
    (hp3 : p3 ≠ "") :
    (p1 = p2 ∧ o1 = o2)
    ∧ (runREvents ⟨ratings, slot0⟩
        ((handleProductRatingEvents (some uid) ratings pid v name onum remoteOk).take 1)).slot =
        ⟨onum, pid⟩
    ∧ (runREvents ⟨ratings, slot0⟩
        (handleProductRatingEvents (some uid) ratings pid v name onum remoteOk)).slot =
        ⟨"", ""⟩
    ∧ showsIndicator ⟨"", ""⟩ p3 o3 = false := by
  simp only [showsIndicator, Bool.and_eq_true, beq_iff_eq] at h1 h2
  have hemp : ("" == p3) = false := by
    simp only [beq_eq_false_iff_ne, ne_eq]
    exact fun h => hp3 h.symm
  refine ⟨⟨h1.1.symm.trans h2.1, h1.2.trans h2.2.symm⟩, ?_, ?_, ?_⟩
  · cases remoteOk <;> simp [handleProductRatingEvents, hno, runREvents, applyREvent]
  · cases remoteOk <;> simp [handleProductRatingEvents, hno, runREvents, applyREvent]
  · simp [showsIndicator, hemp]

/-- C10 witness: a concrete successful submission for ("p1", "A") from an
arbitrary prior slot value, and the matching-uniqueness facts at the slot
("A", "p1"). -/
theorem c10_witness :
    (isTruthy (rempty (ratingKey "p1" "A")) = false
      ∧ showsIndicator ⟨"A", "p1"⟩ "p1" "A" = true
      ∧ showsIndicator ⟨"A", "p1"⟩ "p1" "A" = true
      ∧ "q9" ≠ "")
    ∧ (("p1" = "p1" ∧ "A" = "A")
      ∧ (runREvents ⟨rempty, ⟨"B", "p7"⟩⟩
          ((handleProductRatingEvents (some "u") rempty "p1" 4 "Tea" "A" true).take 1)).slot =
          ⟨"A", "p1"⟩
      ∧ (runREvents ⟨rempty, ⟨"B", "p7"⟩⟩
          (handleProductRatingEvents (some "u") rempty "p1" 4 "Tea" "A" true)).slot =
          ⟨"", ""⟩
      ∧ showsIndicator ⟨"", ""⟩ "q9" "A" = false) :=
  ⟨⟨rfl, by decide, by decide, by decide⟩,
    c10_single_loading_slot rempty ⟨"B", "p7"⟩ ⟨"A", "p1"⟩ "p1" "Tea" "A" "u"
      "p1" "A" "p1" "A" "q9" "A" 4 true rfl (by decide) (by decide) (by decide)⟩

end Orders
